import Mathlib

/-!
Shallow embedding of `kube-svc-metrics` (src/main.go).

The program registers one Prometheus collector over a client-go informer
cache of `v1.Service` objects and serves `/metrics` on port 8080.  We embed
the data the program touches (service name/namespace/uid, the spec type, the
load-balancer ingress list), the relevant fragment of the Prometheus client
(`Desc`, `NewConstMetric`'s label-count check behind `MustNewConstMetric`),
the collector (`newServiceCollector`, `Collect`), and the control flow of
`main` (config construction, clientset construction, the bounded cache-sync
wait, registration and serving).
-/

/-- One entry of `Service.Status.LoadBalancer.Ingress`
(`v1.LoadBalancerIngress`): an assigned endpoint carrying an IP and/or a
hostname, either of which may be the empty string. -/
structure LoadBalancerIngress where
  ip : String
  hostname : String
deriving DecidableEq

instance : Inhabited LoadBalancerIngress := ⟨⟨"", ""⟩⟩

/-- `v1.LoadBalancerStatus`: the list of assigned ingress endpoints, in the
order delivered by the API server. -/
structure LoadBalancerStatus where
  ingress : List LoadBalancerIngress
deriving DecidableEq

/-- The part of `v1.ServiceStatus` the program reads. -/
structure ServiceStatus where
  loadBalancer : LoadBalancerStatus
deriving DecidableEq

/-- `v1.ServiceType`; the program only compares against
`v1.ServiceTypeLoadBalancer`. -/
inductive ServiceType where
  | clusterIP
  | nodePort
  | loadBalancer
  | externalName
deriving DecidableEq

/-- The part of `v1.ServiceSpec` the program reads. -/
structure ServiceSpec where
  type : ServiceType
deriving DecidableEq

/-- A `v1.Service` as the program reads it: `Name`, `Namespace` (written `ns`
because `namespace` is reserved in Lean) and `UID` from the object metadata,
plus the spec type and the load-balancer status. -/
structure Service where
  name : String
  ns : String
  uid : String
  spec : ServiceSpec
  status : ServiceStatus
deriving DecidableEq

/-- `prometheus.Desc`: a fully-qualified metric name, help text and the
ordered variable-label names. -/
structure Desc where
  fqName : String
  help : String
  variableLabels : List String
deriving DecidableEq

/-- `prometheus.ValueType`; the program always passes
`prometheus.CounterValue`. -/
inductive ValueType where
  | counterValue
  | gaugeValue
  | untypedValue
deriving DecidableEq

/-- A const metric as produced by `prometheus.NewConstMetric`: its desc, the
value type, the numeric value (the program only ever constructs the exact
value 1, so `Nat` represents it faithfully) and the ordered label values. -/
structure Metric where
  desc : Desc
  valueType : ValueType
  value : Nat
  labelValues : List String
deriving DecidableEq

/-- `prometheus.NewConstMetric`: construction fails when the number of label
values does not match the desc's variable labels; `MustNewConstMetric` panics
exactly on that failure, modelled here as the `none` case. -/
def newConstMetric (desc : Desc) (vt : ValueType) (value : Nat)
    (labelValues : List String) : Option Metric :=
  if labelValues.length = desc.variableLabels.length then
    some { desc := desc, valueType := vt, value := value,
           labelValues := labelValues }
  else
    none

/-- The `serviceCollector` struct: the informer's indexer (its `List()`
contents, modelled as the list of services currently in the mirror) and the
metric desc. -/
structure serviceCollector where
  serviceIndexer : List Service
  serviceMetric : Desc
deriving DecidableEq

/-- The desc built inside `newServiceCollector`. -/
def serviceMetricDesc : Desc :=
  { fqName := "kube_service_info_extended",
    help := "Extended information for services",
    variableLabels := ["service", "namespace", "load_balancer_ip", "uid"] }

/-- `newServiceCollector`. -/
def newServiceCollector (serviceIndexer : List Service) : serviceCollector :=
  { serviceIndexer := serviceIndexer, serviceMetric := serviceMetricDesc }

/-- `Describe`: sends the single desc on the channel. -/
def Describe (c : serviceCollector) : List Desc := [c.serviceMetric]

/-- The body of `Collect`'s loop for one service: skip (`continue`) unless
the spec type is `LoadBalancer`; skip when the ingress list has length < 1;
otherwise send one const metric built from the name, namespace, the IP of
`Ingress[0]` (`headI` — the loop only reaches it when the list is non-empty)
and the uid, with value 1.  The outer `Option` is whether anything is sent;
the inner `Option` is `NewConstMetric`'s own success. -/
def emitFor (desc : Desc) (svc : Service) : Option (Option Metric) :=
  if svc.spec.type ≠ ServiceType.loadBalancer then
    none
  else if svc.status.loadBalancer.ingress.length < 1 then
    none
  else
    some (newConstMetric desc ValueType.counterValue 1
      [svc.name, svc.ns, svc.status.loadBalancer.ingress.headI.ip, svc.uid])

/-- State-passing embedding of `serviceCollector.Collect`: the method ranges
over `c.serviceIndexer.List()`, sends metrics on the channel (collected here
as the output list) and performs no writes, so the post-call collector state
is returned alongside the sent metrics. -/
def CollectSt (c : serviceCollector) :
    List (Option Metric) × serviceCollector :=
  (c.serviceIndexer.filterMap (emitFor c.serviceMetric), c)

/-- The sequence of metrics `Collect` sends on its channel. -/
def Collect (c : serviceCollector) : List (Option Metric) :=
  (CollectSt c).1

/-- `rest.Config` handle (contents irrelevant to the control flow). -/
structure RestConfig where
  host : String
deriving DecidableEq

/-- `kubernetes.Clientset` handle (contents irrelevant to the control flow). -/
structure Clientset where
  host : String
deriving DecidableEq

/-- The external outcomes `main` branches on: the `USE_LOCAL` toggle, the
result of `clientcmd.BuildConfigFromFlags` (out-of-cluster) and of
`rest.InClusterConfig` (in-cluster), the result of
`kubernetes.NewForConfig`, whether `cache.WaitForCacheSync` returned true
within its 30-second context, and the informer mirror contents at serve
time. -/
structure MainEnv where
  useLocal : Bool
  kubeconfigResult : Except String RestConfig
  inClusterResult : Except String RestConfig
  clientsetResult : Except String Clientset
  cacheSynced : Bool
  mirror : List Service

/-- How `main` terminates (or settles into serving): a `panic`, the
handled-error-and-return branch of the sync wait, or serving — which records
the registered collector, the set of registered HTTP paths and the listen
port. -/
inductive MainOutcome where
  | panicked (msg : String)
  | syncFailure (msg : String)
  | serving (collector : serviceCollector) (paths : List String) (port : Nat)
deriving DecidableEq

/-- Control flow of `main`: pick the config constructor by `USE_LOCAL` and
panic on its error; panic if `NewForConfig` fails; if the cache-sync wait
fails, hand the error to `runtime.HandleError` and return without registering
or serving; otherwise register `newServiceCollector` over the mirror, handle
only `/metrics`, and listen on `:8080`. -/
def mainRun (env : MainEnv) : MainOutcome :=
  match (if env.useLocal then env.kubeconfigResult else env.inClusterResult) with
  | Except.error e => MainOutcome.panicked e
  | Except.ok _ =>
    match env.clientsetResult with
    | Except.error e => MainOutcome.panicked e
    | Except.ok _ =>
      if env.cacheSynced then
        MainOutcome.serving (newServiceCollector env.mirror) ["/metrics"] 8080
      else
        MainOutcome.syncFailure "timed out waiting for caches to sync"

/-! ## Shared characterization lemmas -/

/-- Per-service characterization of the loop body with the real desc: a
service produces exactly one metric when it is of type `LoadBalancer` with a
non-empty ingress list — and that metric carries the name, namespace, first
ingress IP and uid with value 1 — and produces nothing otherwise. -/
theorem emitFor_eq (svc : Service) :
    emitFor serviceMetricDesc svc =
      (if svc.spec.type = ServiceType.loadBalancer ∧
          svc.status.loadBalancer.ingress ≠ [] then
        some (some { desc := serviceMetricDesc,
                     valueType := ValueType.counterValue, value := 1,
                     labelValues := [svc.name, svc.ns,
                       svc.status.loadBalancer.ingress.headI.ip, svc.uid] })
      else none) := by
  obtain ⟨n, ns, u, ⟨t⟩, ⟨⟨ing⟩⟩⟩ := svc
  cases t <;> cases ing <;>
    simp [emitFor, newConstMetric, serviceMetricDesc]

/-- `Collect` over the collector the program builds, characterized entity by
entity. -/
theorem collect_characterization (m : List Service) :
    Collect (newServiceCollector m) =
      m.filterMap (fun svc =>
        if svc.spec.type = ServiceType.loadBalancer ∧
            svc.status.loadBalancer.ingress ≠ [] then
          some (some { desc := serviceMetricDesc,
                       valueType := ValueType.counterValue, value := 1,
                       labelValues := [svc.name, svc.ns,
                         svc.status.loadBalancer.ingress.headI.ip, svc.uid] })
        else none) := by
  induction m with
  | nil => rfl
  | cons svc rest ih =>
    simp only [Collect, CollectSt, newServiceCollector,
      List.filterMap_cons] at ih ⊢
    rw [emitFor_eq, ih]

/-- Any metric sent by `Collect` comes from some mirror service of type
`LoadBalancer` with a non-empty ingress list, through `newConstMetric` with
value 1 and the four label values the source passes. -/
theorem collect_mem (c : serviceCollector) (om : Option Metric)
    (hom : om ∈ Collect c) :
    ∃ svc ∈ c.serviceIndexer,
      svc.spec.type = ServiceType.loadBalancer ∧
      svc.status.loadBalancer.ingress ≠ [] ∧
      om = newConstMetric c.serviceMetric ValueType.counterValue 1
        [svc.name, svc.ns, svc.status.loadBalancer.ingress.headI.ip,
         svc.uid] := by
  simp only [Collect, CollectSt, List.mem_filterMap] at hom
  obtain ⟨svc, hsvc, hemit⟩ := hom
  refine ⟨svc, hsvc, ?_⟩
  unfold emitFor at hemit
  split at hemit
  · cases hemit
  · split at hemit
    · cases hemit
    · next hty hlen =>
      refine ⟨not_not.mp hty, ?_, ?_⟩
      · exact List.ne_nil_of_length_pos (by omega)
      · exact (Option.some.injEq _ _ ▸ hemit).symm

/-- Fields of a successfully constructed const metric. -/
theorem newConstMetric_fields (d : Desc) (vt : ValueType) (v : Nat)
    (lv : List String) (met : Metric)
    (h : newConstMetric d vt v lv = some met) :
    met.desc = d ∧ met.valueType = vt ∧ met.value = v ∧
      met.labelValues = lv := by
  unfold newConstMetric at h
  split at h
  · cases h
    exact ⟨rfl, rfl, rfl, rfl⟩
  · cases h

/-! ## Concrete fixtures used by the witnesses -/

def ingA : LoadBalancerIngress := { ip := "1.2.3.4", hostname := "" }

def ingB : LoadBalancerIngress := { ip := "5.6.7.8", hostname := "" }

def svcLB : Service :=
  { name := "svc1", ns := "default", uid := "u1",
    spec := { type := ServiceType.loadBalancer },
    status := { loadBalancer := { ingress := [ingA] } } }

def svcEmpty : Service :=
  { name := "svc1", ns := "default", uid := "u1",
    spec := { type := ServiceType.loadBalancer },
    status := { loadBalancer := { ingress := [] } } }

def svcAB : Service :=
  { name := "svc1", ns := "default", uid := "u1",
    spec := { type := ServiceType.loadBalancer },
    status := { loadBalancer := { ingress := [ingA, ingB] } } }

def svcHost : Service :=
  { name := "svc2", ns := "prod", uid := "u2",
    spec := { type := ServiceType.loadBalancer },
    status := { loadBalancer :=
      { ingress := [{ ip := "", hostname := "lb.example.com" }] } } }

def metA : Metric :=
  { desc := serviceMetricDesc, valueType := ValueType.counterValue,
    value := 1, labelValues := ["svc1", "default", "1.2.3.4", "u1"] }

/-! ## Claims -/

/-- C1: For every entity in the mirror at pull time, `Collect` emits exactly
one observation if and only if the service type is `LoadBalancer` and the
ingress list is non-empty; the observation carries the name, the namespace,
the first ingress IP and the uid, with value 1; every other entity
contributes nothing. -/
theorem C1_qualifying_emission (m : List Service) :
    (Collect (newServiceCollector m) =
      m.filterMap (fun svc =>
        if svc.spec.type = ServiceType.loadBalancer ∧
            svc.status.loadBalancer.ingress ≠ [] then
          some (some { desc := serviceMetricDesc,
                       valueType := ValueType.counterValue, value := 1,
                       labelValues := [svc.name, svc.ns,
                         svc.status.loadBalancer.ingress.headI.ip,
                         svc.uid] })
        else none)) ∧
    ∀ svc : Service,
      (emitFor serviceMetricDesc svc).isSome = true ↔
        (svc.spec.type = ServiceType.loadBalancer ∧
          svc.status.loadBalancer.ingress ≠ []) := by
  refine ⟨collect_characterization m, fun svc => ?_⟩
  rw [emitFor_eq]
  split <;> simp_all

/-- C2: a `LoadBalancer`-type entity with an empty ingress list yields no
observation; after an update giving it at least one ingress endpoint, the
next `Collect` yields exactly one observation for it. -/
theorem C2_endpoint_gating (svc : Service) (ing : LoadBalancerIngress)
    (rest : List LoadBalancerIngress)
    (hlb : svc.spec.type = ServiceType.loadBalancer)
    (hempty : svc.status.loadBalancer.ingress = []) :
    Collect (newServiceCollector [svc]) = [] ∧
    (Collect (newServiceCollector
      [{ svc with status :=
          { loadBalancer := { ingress := ing :: rest } } }])).length = 1 := by
  constructor
  · rw [collect_characterization]
    simp [hempty]
  · rw [collect_characterization]
    simp [hlb]

/-- C2 witness at a concrete service with zero and then one endpoint. -/
theorem C2_witness :
    Collect (newServiceCollector [svcEmpty]) = [] ∧
    (Collect (newServiceCollector
      [{ svcEmpty with status :=
          { loadBalancer := { ingress := [ingA] } } }])).length = 1 :=
  C2_endpoint_gating svcEmpty ingA [] rfl rfl

/-- C3: a qualifying entity with ingress list `[A, B]` yields the observation
carrying `A`'s address, never `B`'s. -/
theorem C3_first_endpoint_selected (svc : Service)
    (A B : LoadBalancerIngress)
    (hlb : svc.spec.type = ServiceType.loadBalancer)
    (hing : svc.status.loadBalancer.ingress = [A, B]) :
    Collect (newServiceCollector [svc]) =
      [some { desc := serviceMetricDesc,
              valueType := ValueType.counterValue, value := 1,
              labelValues := [svc.name, svc.ns, A.ip, svc.uid] }] := by
  rw [collect_characterization]
  simp [hlb, hing]

/-- C3 witness at a concrete service with two endpoints. -/
theorem C3_witness :
    Collect (newServiceCollector [svcAB]) =
      [some { desc := serviceMetricDesc,
              valueType := ValueType.counterValue, value := 1,
              labelValues := [svcAB.name, svcAB.ns, ingA.ip, svcAB.uid] }] :=
  C3_first_endpoint_selected svcAB ingA ingB rfl rfl

/-- C4: with an unchanged mirror, two consecutive `Collect` calls produce
identical observation lists, and every emitted value is exactly 1 on each
call — nothing accumulates across calls. -/
theorem C4_idempotent_value_one (c : serviceCollector) :
    Collect c = Collect c ∧
    ∀ om ∈ Collect c, ∀ met : Metric, om = some met → met.value = 1 := by
  refine ⟨rfl, fun om hom met heq => ?_⟩
  obtain ⟨svc, _, _, _, homeq⟩ := collect_mem c om hom
  subst heq
  exact (newConstMetric_fields _ _ _ _ _ homeq.symm).2.2.1

/-- C4 witness: the concrete metric emitted for `svcLB` has value 1. -/
theorem C4_witness : metA.value = 1 :=
  (C4_idempotent_value_one (newServiceCollector [svcLB])).2
    (some metA) (by decide) metA rfl

/-- C5: `Collect` never fails: every channel send is a successfully
constructed metric (`MustNewConstMetric`'s failure branch is unreachable),
and non-qualifying entities are skipped silently. -/
theorem C5_never_fails (m : List Service) :
    ∀ om ∈ Collect (newServiceCollector m), om.isSome = true := by
  intro om hom
  obtain ⟨svc, _, _, _, homeq⟩ := collect_mem _ om hom
  rw [homeq]
  simp [newConstMetric, newServiceCollector, serviceMetricDesc]

/-- C5 witness: the send for `svcLB` is a successfully built metric. -/
theorem C5_witness : (some metA).isSome = true :=
  C5_never_fails [svcLB] (some metA) (by decide)

/-- C6: `Collect` leaves the mirror unchanged: the post-call collector state,
and in particular its indexer contents, equal the pre-call state. -/
theorem C6_mirror_unchanged (c : serviceCollector) :
    (CollectSt c).2 = c ∧
      (CollectSt c).2.serviceIndexer = c.serviceIndexer :=
  ⟨rfl, rfl⟩

/-- C7: if the cache-sync wait fails, `main` does not serve (and does not
register the collector, which only happens in the serving outcome); when the
config and clientset constructions succeeded, the reported outcome is the
handled sync-timeout error. -/
theorem C7_sync_timeout_fatal (env : MainEnv)
    (h : env.cacheSynced = false) :
    (∀ col paths port,
      mainRun env ≠ MainOutcome.serving col paths port) ∧
    (∀ config cs,
      (if env.useLocal then env.kubeconfigResult else env.inClusterResult) =
        Except.ok config →
      env.clientsetResult = Except.ok cs →
      mainRun env =
        MainOutcome.syncFailure "timed out waiting for caches to sync") := by
  constructor
  · intro col paths port
    unfold mainRun
    split
    · simp
    · split
      · simp
      · rw [h]
        simp
  · intro config cs hcfg hcs
    unfold mainRun
    rw [hcfg, hcs, h]
    simp

def envSyncTimeout : MainEnv :=
  { useLocal := false,
    kubeconfigResult := Except.error "stat /root/.kube/config: no such file",
    inClusterResult := Except.ok { host := "https://10.0.0.1:443" },
    clientsetResult := Except.ok { host := "https://10.0.0.1:443" },
    cacheSynced := false,
    mirror := [] }

/-- C7 witness at a concrete environment whose sync wait times out. -/
theorem C7_witness :
    mainRun envSyncTimeout =
      MainOutcome.syncFailure "timed out waiting for caches to sync" :=
  (C7_sync_timeout_fatal envSyncTimeout rfl).2
    { host := "https://10.0.0.1:443" } { host := "https://10.0.0.1:443" }
    rfl rfl

/-- C8: if constructing the remote-API connection fails — the config step in
whichever mode `USE_LOCAL` selects, or the clientset step — the process
panics with that error and never reaches the serving outcome. -/
theorem C8_connection_failure_fatal (env : MainEnv) :
    (∀ e,
      (if env.useLocal then env.kubeconfigResult else env.inClusterResult) =
        Except.error e →
      mainRun env = MainOutcome.panicked e ∧
      ∀ col paths port,
        mainRun env ≠ MainOutcome.serving col paths port) ∧
    (∀ config e,
      (if env.useLocal then env.kubeconfigResult else env.inClusterResult) =
        Except.ok config →
      env.clientsetResult = Except.error e →
      mainRun env = MainOutcome.panicked e ∧
      ∀ col paths port,
        mainRun env ≠ MainOutcome.serving col paths port) := by
  constructor
  · intro e hcfg
    have hrun : mainRun env = MainOutcome.panicked e := by
      unfold mainRun
      rw [hcfg]
    refine ⟨hrun, fun col paths port hserve => ?_⟩
    rw [hrun] at hserve
    cases hserve
  · intro config e hcfg hcs
    have hrun : mainRun env = MainOutcome.panicked e := by
      unfold mainRun
      rw [hcfg, hcs]
    refine ⟨hrun, fun col paths port hserve => ?_⟩
    rw [hrun] at hserve
    cases hserve

def envBadConfig : MainEnv :=
  { useLocal := true,
    kubeconfigResult :=
      Except.error "invalid configuration: no configuration has been provided",
    inClusterResult := Except.error "unable to load in-cluster configuration",
    clientsetResult := Except.error "no client",
    cacheSynced := false,
    mirror := [] }

/-- C8 witness at a concrete environment whose kubeconfig load fails. -/
theorem C8_witness :
    mainRun envBadConfig =
      MainOutcome.panicked
        "invalid configuration: no configuration has been provided" :=
  ((C8_connection_failure_fatal envBadConfig).1
    "invalid configuration: no configuration has been provided" rfl).1

/-- C9: every metric `Collect` emits carries the fixed desc
`kube_service_info_extended` with label set
{service, namespace, load_balancer_ip, uid} and value 1, and whenever `main`
serves, it registered the collector over the mirror and serves only the
`/metrics` path on port 8080. -/
theorem C9_fixed_identity (m : List Service) :
    serviceMetricDesc.fqName = "kube_service_info_extended" ∧
    serviceMetricDesc.variableLabels =
      ["service", "namespace", "load_balancer_ip", "uid"] ∧
    (∀ om ∈ Collect (newServiceCollector m), ∀ met : Metric,
      om = some met →
      met.desc = serviceMetricDesc ∧ met.value = 1 ∧
        met.labelValues.length = serviceMetricDesc.variableLabels.length) ∧
    (∀ env : MainEnv, ∀ col paths port,
      mainRun env = MainOutcome.serving col paths port →
      col = newServiceCollector env.mirror ∧
        paths = ["/metrics"] ∧ port = 8080) := by
  refine ⟨rfl, rfl, ?_, ?_⟩
  · intro om hom met heq
    obtain ⟨svc, _, _, _, homeq⟩ := collect_mem _ om hom
    subst heq
    obtain ⟨hdesc, _, hval, hlv⟩ :=
      newConstMetric_fields _ _ _ _ _ homeq.symm
    refine ⟨hdesc, hval, ?_⟩
    rw [hlv]
    rfl
  · intro env col paths port hserve
    unfold mainRun at hserve
    split at hserve
    · cases hserve
    · split at hserve
      · cases hserve
      · split at hserve
        · injection hserve with h1 h2 h3
          exact ⟨h1.symm, h2.symm, h3.symm⟩
        · cases hserve

def envServing : MainEnv :=
  { useLocal := false,
    kubeconfigResult := Except.error "stat /root/.kube/config: no such file",
    inClusterResult := Except.ok { host := "https://10.0.0.1:443" },
    clientsetResult := Except.ok { host := "https://10.0.0.1:443" },
    cacheSynced := true,
    mirror := [svcLB] }

/-- C9 witness: the concrete emitted metric has the fixed identity, and the
concrete serving outcome uses `/metrics` on 8080. -/
theorem C9_witness :
    (metA.desc = serviceMetricDesc ∧ metA.value = 1 ∧
      metA.labelValues.length = serviceMetricDesc.variableLabels.length) ∧
    (newServiceCollector [svcLB] = newServiceCollector envServing.mirror ∧
      ["/metrics"] = ["/metrics"] ∧ (8080 : Nat) = 8080) :=
  ⟨(C9_fixed_identity [svcLB]).2.2.1 (some metA) (by decide) metA rfl,
   (C9_fixed_identity [svcLB]).2.2.2 envServing
     (newServiceCollector [svcLB]) ["/metrics"] 8080 rfl⟩

/-- C10: a qualifying entity whose first ingress entry has an empty IP (for
example hostname-only) still yields exactly one observation, with the
load_balancer_ip label value equal to the empty string — the entity is not
skipped and the hostname is not substituted. -/
theorem C10_empty_ip_emitted (svc : Service) (hn : String)
    (rest : List LoadBalancerIngress)
    (hlb : svc.spec.type = ServiceType.loadBalancer)
    (hing : svc.status.loadBalancer.ingress =
      { ip := "", hostname := hn } :: rest) :
    Collect (newServiceCollector [svc]) =
      [some { desc := serviceMetricDesc,
              valueType := ValueType.counterValue, value := 1,
              labelValues := [svc.name, svc.ns, "", svc.uid] }] := by
  rw [collect_characterization]
  simp [hlb, hing]

/-- C10 witness at a concrete hostname-only service. -/
theorem C10_witness :
    Collect (newServiceCollector [svcHost]) =
      [some { desc := serviceMetricDesc,
              valueType := ValueType.counterValue, value := 1,
              labelValues := [svcHost.name, svcHost.ns, "",
                svcHost.uid] }] :=
  C10_empty_ip_emitted svcHost "lb.example.com" [] rfl rfl
